import Mathlib

/-!
Verification of the hand-rolled SMTP client in src/index.js of
rhmunna143/bulk-emailsender-smtp-server.

The development shallowly embeds the pieces of the program that the claims
C1..C10 are about:

* the envelope builder of `_sendViaHostinger` (source lines 89..104):
  `buildCommands`, `mkMessageId`, together with the JavaScript string
  primitives it uses (`jsSplitAt1` for `s.split(c)[1]` inside a template
  literal, `jsOr` for `a || b` on strings, `base64` for
  `Buffer.from(s).toString(base64)`);
* the `from` field constructed by `sendEmail` (source line 175): `mkFrom`;
* the socket event handlers of `_sendViaHostinger` (source lines 107..141):
  `onData`, `handleEvent`, `runEvents`, `runSession` over an explicit
  `SessionState`.  The pending promise is modelled by the
  `SessionState.settled` field: JavaScript promises keep the first
  `resolve`/`reject` and ignore later ones, which `settle` encodes.
  `socket.end()` is modelled by the `SessionState.ended` flag; a
  `socket.write` issued after `end()` raises `ERR_STREAM_WRITE_AFTER_END`
  and puts nothing on the wire, so `onData` records a transmission in
  `sentLog` only while `ended` is false (the `stage` counter is still
  incremented, exactly as `stage++` is evaluated in the source);
* the synchronous setup part of the promise executor (source lines 80..104):
  `setupPhase`, used for the validation claim C9.
-/

/-- Boolean test that the first character list leads the second one, used to
model the JavaScript `String.prototype.startsWith` at the character level. -/
def charListLeads : List Char → List Char → Bool
  | [], _ => true
  | _ :: _, [] => false
  | a :: as, b :: bs => a == b && charListLeads as bs

/-- Model of `s.startsWith(p)` from JavaScript. -/
def jsStartsWith (s p : String) : Bool :=
  charListLeads p.toList s.toList

/-- Response classification of the data handler, source line 115:
`response.startsWith(2) || response.startsWith(3) || response.startsWith(334)`.
The whole delivery is classified by its leading characters; the third test is
redundant because any string starting with `334` already starts with `3`. -/
def classify (response : String) : Bool :=
  jsStartsWith response "2" || jsStartsWith response "3" || jsStartsWith response "334"

/-- Splitting of a character list at every occurrence of the separator
character, mirroring the JavaScript `String.prototype.split` with a
one-character separator. -/
def splitAtChar (c : Char) : List Char → List (List Char)
  | [] => [[]]
  | a :: as =>
    match splitAtChar c as with
    | [] => [[a]]
    | g :: gs => if a == c then [] :: g :: gs else (a :: g) :: gs

/-- Model of the template fragment `${s.split(@)[1]}`: the second group of
the split, or the text `undefined` when the string holds no `@` (JavaScript
renders the undefined index as the literal text `undefined`). -/
def jsSplitAt1 (s : String) : String :=
  match splitAtChar '@' s.toList with
  | [_] => "undefined"
  | gs => String.mk (gs.getD 1 [])

/-- UTF-8 encoding of one character as byte values, used to model
`Buffer.from(string)`. -/
def utf8Bytes (c : Char) : List Nat :=
  let n := c.toNat
  if n < 128 then [n]
  else if n < 2048 then [192 + n / 64, 128 + n % 64]
  else if n < 65536 then [224 + n / 4096, 128 + n / 64 % 64, 128 + n % 64]
  else [240 + n / 262144, 128 + n / 4096 % 64, 128 + n / 64 % 64, 128 + n % 64]

/-- UTF-8 bytes of a whole string. -/
def strBytes (s : String) : List Nat :=
  (s.toList.map utf8Bytes).flatten

/-- Alphabet of standard base64. -/
def b64Alphabet : List Char :=
  "ABCDEFGHIJKLMNOPQRSTUVWXYZabcdefghijklmnopqrstuvwxyz0123456789+/".toList

/-- Character of the base64 alphabet at a sextet value. -/
def b64Char (n : Nat) : Char :=
  b64Alphabet.getD n 'A'

/-- Base64 encoding of a byte list, three bytes to four characters with `=`
padding, as produced by `Buffer.prototype.toString(base64)`. -/
def base64Groups : List Nat → List Char
  | [] => []
  | [a] => [b64Char (a / 4), b64Char (a % 4 * 16), '=', '=']
  | [a, b] => [b64Char (a / 4), b64Char (a % 4 * 16 + b / 16), b64Char (b % 16 * 4), '=']
  | a :: b :: c :: rest =>
    b64Char (a / 4) :: b64Char (a % 4 * 16 + b / 16) ::
      b64Char (b % 16 * 4 + c / 64) :: b64Char (c % 64) :: base64Groups rest

/-- Model of `Buffer.from(s).toString(base64)`. -/
def base64 (s : String) : String :=
  String.mk (base64Groups (strBytes s))

/-- Model of the JavaScript expression `html || text` on an optional html
string: `undefined` and the empty string are falsy, so both fall back to the
plain text body. -/
def jsOr (html : Option String) (text : String) : String :=
  match html with
  | none => text
  | some h => if h == "" then text else h

/-- Message identifier of source line 89:
`<` + `Date.now()` + `@` + `mailOptions.from.split(@)[1]` + `>`. -/
def mkMessageId (now : Nat) (fromAddr : String) : String :=
  "<" ++ toString now ++ "@" ++ jsSplitAt1 fromAddr ++ ">"

/-- Construction of the `from` mail option by `sendEmail`, source line 175:
the display name in double quotes followed by the authenticated address in
angle brackets. -/
def mkFrom (senderName user : String) : String :=
  "\"" ++ senderName ++ "\" <" ++ user ++ ">"

/-- Command list of `_sendViaHostinger`, source lines 94..104, with the same
template chunking as the source.  `user` is `this.options.auth.user` (the
local `sender` variable), `fromHeader` is `mailOptions.from`, `recipient` is
`mailOptions.to`. -/
def buildCommands (user pass fromHeader recipient subject text : String)
    (html : Option String) (messageId : String) : List String :=
  [ "EHLO " ++ jsSplitAt1 user ++ "\r\n"
  , "AUTH LOGIN\r\n"
  , base64 user ++ "\r\n"
  , base64 pass ++ "\r\n"
  , "MAIL FROM:<" ++ user ++ ">\r\n"
  , "RCPT TO:<" ++ recipient ++ ">\r\n"
  , "DATA\r\n"
  , "From: " ++ fromHeader ++ "\r\nTo: " ++ recipient ++ "\r\nSubject: " ++ subject ++
      "\r\nMessage-ID: " ++ messageId ++ "\r\nContent-Type: text/html; charset=utf-8\r\n\r\n" ++
      jsOr html text ++ "\r\n.\r\n"
  , "QUIT\r\n" ]

/-- Line terminator of the wire protocol. -/
def crlf : String := "\r\n"

/-- Body selection as the specification words it for C8 and C10: the HTML
body, falling back to the plain text body when no HTML content is supplied
(absent or empty). -/
def specBody (html : Option String) (text : String) : String :=
  match html with
  | none => text
  | some h => if h == "" then text else h

/-- DATA payload as the specification describes it: the
From/To/Subject/Message-ID/Content-Type header block, a blank line, the body,
and the `CRLF . CRLF` terminator. -/
def specDataBlock (fromHeader recipient subject messageId body : String) : String :=
  "From: " ++ fromHeader ++ crlf ++
  "To: " ++ recipient ++ crlf ++
  "Subject: " ++ subject ++ crlf ++
  "Message-ID: " ++ messageId ++ crlf ++
  "Content-Type: text/html; charset=utf-8" ++ crlf ++
  crlf ++ body ++ crlf ++ "." ++ crlf

/-- Envelope as claim C8 and spec sections 4.1 and 6 describe it: the ordered
nine-stage, CRLF-terminated command list, with the authenticated sender
address (not the caller-supplied display address) in MAIL FROM, and the
caller-supplied display string only inside the human-readable From header. -/
def specEnvelope (user pass fromHeader recipient subject text : String)
    (html : Option String) (messageId : String) : List String :=
  [ "EHLO " ++ jsSplitAt1 user ++ crlf
  , "AUTH LOGIN" ++ crlf
  , base64 user ++ crlf
  , base64 pass ++ crlf
  , "MAIL FROM:<" ++ user ++ ">" ++ crlf
  , "RCPT TO:<" ++ recipient ++ ">" ++ crlf
  , "DATA" ++ crlf
  , specDataBlock fromHeader recipient subject messageId (specBody html text)
  , "QUIT" ++ crlf ]

/-- Decision procedure for the pattern of claim C6 on message identifiers:
an opening angle bracket, one or more digits, an at sign, one or more
characters none of which is an at sign or a closing angle bracket, a closing
angle bracket, end of string. -/
def matchesMsgIdPattern (s : String) : Bool :=
  match s.toList with
  | '<' :: rest =>
    let digits := rest.takeWhile Char.isDigit
    let afterDigits := rest.drop digits.length
    !digits.isEmpty &&
      match afterDigits with
      | '@' :: rest2 =>
        let dom := rest2.takeWhile fun c => !(c == '@') && !(c == '>')
        !dom.isEmpty && rest2.drop dom.length == ['>']
      | _ => false
  | _ => false

/-- Terminal value of the session promise: `resolve({ messageId })` or
`reject(new Error(message))`, carrying exactly what the source passes. -/
inductive Outcome where
  | resolved (messageId : String)
  | rejected (message : String)
deriving DecidableEq, Repr

/-- Socket lifecycle events that `_sendViaHostinger` listens for. -/
inductive SocketEvent where
  | data (response : String)
  | timeout
  | socketErr (message : String)
  | close
deriving DecidableEq, Repr

/-- Per-session mutable state of `_sendViaHostinger`: the `stage` counter of
source line 88, whether `socket.end()` has been called, the promise outcome
(absent while pending, first settlement kept), and the indices of the
commands actually put on the wire, in transmission order. -/
structure SessionState where
  stage : Nat
  ended : Bool
  settled : Option Outcome
  sentLog : List Nat
deriving DecidableEq, Repr

/-- Session state right after the executor set up its listeners: stage 0,
socket open, promise pending, nothing transmitted. -/
def initState : SessionState :=
  { stage := 0, ended := false, settled := none, sentLog := [] }

/-- Settlement of the session promise: JavaScript promises keep the first
`resolve`/`reject` and ignore every later one. -/
def settle (s : SessionState) (o : Outcome) : SessionState :=
  match s.settled with
  | some _ => s
  | none => { s with settled := some o }

/-- Data handler of source lines 107..123.  A positive classification runs
`if (stage < commands.length) socket.write(commands[stage++])`: the counter
is always incremented, but a write issued after `socket.end()` raises
`ERR_STREAM_WRITE_AFTER_END` and transmits nothing, so the transmission log
grows only while the socket is not ended.  Anything else runs `socket.end()`
and rejects with `SMTP Error: ` followed by the raw delivery. -/
def onData (numCommands : Nat) (s : SessionState) (response : String) : SessionState :=
  if classify response then
    if s.stage < numCommands then
      { s with
        stage := s.stage + 1
        sentLog := if s.ended then s.sentLog else s.sentLog ++ [s.stage] }
    else s
  else
    settle { s with ended := true } (.rejected ("SMTP Error: " ++ response))

/-- Event dispatch of source lines 107..141: the data handler, the timeout
handler (`socket.end()` then reject), the error handler (reject with the
transport error), and the close handler (resolve with the message identifier
when `stage >= commands.length - 1`, otherwise reject). -/
def handleEvent (numCommands : Nat) (messageId : String) (s : SessionState) :
    SocketEvent → SessionState
  | .data response => onData numCommands s response
  | .timeout => settle { s with ended := true } (.rejected "SMTP connection timeout")
  | .socketErr m => settle s (.rejected m)
  | .close =>
    if numCommands - 1 ≤ s.stage then settle s (.resolved messageId)
    else settle s (.rejected "SMTP connection closed prematurely")

/-- Processing of a list of socket events from a given state. -/
def runEvents (numCommands : Nat) (messageId : String) (s : SessionState) :
    List SocketEvent → SessionState
  | [] => s
  | e :: es => runEvents numCommands messageId (handleEvent numCommands messageId s e) es

/-- Whole session of `_sendViaHostinger` viewed as a function of the socket
event sequence. -/
def runSession (numCommands : Nat) (messageId : String) (events : List SocketEvent) :
    SessionState :=
  runEvents numCommands messageId initState events

/-- Failure mode of the synchronous executor body: a thrown `TypeError`
(reading a property of `undefined`, or `Buffer.from(undefined)`), which
rejects the promise. -/
inductive SetupError where
  | typeErrorThrown
deriving DecidableEq, Repr

/-- Value of the synchronous executor body: either the command list with the
message identifier, or the thrown error. -/
inductive SetupOutcome where
  | ok (commands : List String) (messageId : String)
  | thrown (e : SetupError)
deriving DecidableEq, Repr

/-- Result of the synchronous setup part of the promise executor: whether the
TLS connection attempt was issued, and what the executor body produced. -/
structure SetupResult where
  connectAttempted : Bool
  result : SetupOutcome
deriving DecidableEq, Repr

/-- Rendering of a possibly undefined string inside a template literal:
JavaScript prints the text `undefined`. -/
def jsTemplate (v : Option String) : String :=
  v.getD "undefined"

/-- Synchronous setup of `_sendViaHostinger`, source lines 80..104, in source
order: `tls.connect` is called first, unconditionally; then the message
identifier is computed from `mailOptions.from` (a `TypeError` is thrown when
`from` is undefined); then the command list is built, throwing when
`auth.user` or `auth.pass` is undefined, and embedding the text `undefined`
for an absent recipient.  No validation of sender, recipient or
configuration happens anywhere in `sendMail` or `_sendViaHostinger`. -/
def setupPhase (userOpt passOpt fromOpt toOpt : Option String)
    (subject text : String) (html : Option String) (now : Nat) : SetupResult :=
  { connectAttempted := true
  , result :=
      match fromOpt with
      | none => .thrown .typeErrorThrown
      | some f =>
        match userOpt with
        | none => .thrown .typeErrorThrown
        | some u =>
          match passOpt with
          | none => .thrown .typeErrorThrown
          | some p =>
            .ok (buildCommands u p f (jsTemplate toOpt) subject text html (mkMessageId now f))
               (mkMessageId now f) }

/-- Boolean test that the setup reached the end of the executor body without
throwing. -/
def setupSucceeded (r : SetupResult) : Bool :=
  match r.result with
  | .ok _ _ => true
  | .thrown _ => false

/-- Command list produced by a successful setup, empty on a throw. -/
def setupCommands (r : SetupResult) : List String :=
  match r.result with
  | .ok cs _ => cs
  | .thrown _ => []

lemma strDataAppend (a b : String) : (a ++ b).data = a.data ++ b.data := rfl

lemma strExt {a b : String} (h : a.data = b.data) : a = b := by
  cases a; cases b; exact congrArg String.mk h

lemma strAppendAssoc (a b c : String) : a ++ b ++ c = a ++ (b ++ c) := by
  apply strExt
  simp [strDataAppend, List.append_assoc]

lemma runEvents_append (n : Nat) (mid : String) (s : SessionState)
    (as bs : List SocketEvent) :
    runEvents n mid s (as ++ bs) = runEvents n mid (runEvents n mid s as) bs := by
  induction as generalizing s with
  | nil => rfl
  | cons a as ih => simp [runEvents, ih]

lemma settle_of_settled {s : SessionState} {o : Outcome} (h : s.settled = some o)
    (x : Outcome) : settle s x = s := by
  unfold settle
  rw [h]

lemma settle_of_pending {s : SessionState} (h : s.settled = none) (x : Outcome) :
    settle s x = { s with settled := some x } := by
  unfold settle
  rw [h]

lemma handleEvent_keeps_settled {n : Nat} {mid : String} {s : SessionState} {o : Outcome}
    (h : s.settled = some o) (e : SocketEvent) :
    (handleEvent n mid s e).settled = some o := by
  cases e with
  | data r =>
    simp only [handleEvent, onData]
    by_cases hc : classify r
    · simp only [hc, if_true]
      by_cases hst : s.stage < n <;> simp [hst, h]
    · have hs : (SessionState.mk s.stage true s.settled s.sentLog).settled = some o := h
      simp only [hc, if_false, Bool.false_eq_true]
      rw [settle_of_settled hs]
      exact h
  | timeout =>
    have hs : (SessionState.mk s.stage true s.settled s.sentLog).settled = some o := h
    simp only [handleEvent]
    rw [settle_of_settled hs]
    exact h
  | socketErr m =>
    simp only [handleEvent]
    rw [settle_of_settled h]
    exact h
  | close =>
    simp only [handleEvent]
    by_cases hst : n - 1 ≤ s.stage <;> simp only [hst, if_true, if_false] <;>
      rw [settle_of_settled h] <;> exact h

lemma runEvents_keeps_settled {n : Nat} {mid : String} {o : Outcome}
    (es : List SocketEvent) :
    ∀ s : SessionState, s.settled = some o → (runEvents n mid s es).settled = some o := by
  induction es with
  | nil => intro s h; exact h
  | cons e es ih =>
    intro s h
    exact ih _ (handleEvent_keeps_settled h e)

/-- Canonical state of a session that has so far only seen positively
classified deliveries: k commands transmitted in order, stage k, socket open,
promise pending. -/
def cleanState (k : Nat) : SessionState :=
  { stage := k, ended := false, settled := none, sentLog := List.range k }

lemma cleanState_zero : cleanState 0 = initState := rfl

lemma cleanRun (mid : String) :
    ∀ rs : List String, (∀ r ∈ rs, classify r = true) →
      ∀ k : Nat, k ≤ 9 →
        runEvents 9 mid (cleanState k) (rs.map SocketEvent.data) =
          cleanState (min (k + rs.length) 9) := by
  intro rs
  induction rs with
  | nil =>
    intro _ k hk
    have hmin : min (k + ([] : List String).length) 9 = k := by
      simpa using Nat.min_eq_left hk
    simp only [List.map_nil, runEvents, hmin]
  | cons r rs ih =>
    intro hpos k hk
    have hr : classify r = true := hpos r (List.mem_cons_self r rs)
    have hrs : ∀ x ∈ rs, classify x = true := fun x hx => hpos x (List.mem_cons_of_mem r hx)
    rw [List.map_cons, runEvents]
    by_cases hlt : k < 9
    · have step : handleEvent 9 mid (cleanState k) (SocketEvent.data r) = cleanState (k + 1) := by
        simp [handleEvent, onData, hr, cleanState, hlt, List.range_succ]
      rw [step, ih hrs (k + 1) (by omega)]
      have harg : k + 1 + rs.length = k + (r :: rs).length := by
        simp [List.length_cons]
        omega
      exact congrArg (fun m => cleanState (min m 9)) harg
    · have hk9 : k = 9 := by omega
      subst hk9
      have step : handleEvent 9 mid (cleanState 9) (SocketEvent.data r) = cleanState 9 := by
        simp [handleEvent, onData, hr, cleanState]
      rw [step, ih hrs 9 (by omega)]
      have h1 : min (9 + rs.length) 9 = 9 := Nat.min_eq_right (by omega)
      have h2 : min (9 + (r :: rs).length) 9 = 9 := Nat.min_eq_right (by omega)
      rw [h1, h2]

lemma deadRun (n : Nat) (mid : String) :
    ∀ (rs : List String) (s : SessionState) (o : Outcome),
      s.ended = true → s.settled = some o →
        (runEvents n mid s (rs.map SocketEvent.data)).ended = true ∧
        (runEvents n mid s (rs.map SocketEvent.data)).settled = some o ∧
        (runEvents n mid s (rs.map SocketEvent.data)).sentLog = s.sentLog := by
  intro rs
  induction rs with
  | nil =>
    intro s o he hs
    exact ⟨he, hs, rfl⟩
  | cons r rs ih =>
    intro s o he hs
    rw [List.map_cons, runEvents]
    have hstep : (handleEvent n mid s (SocketEvent.data r)).ended = true ∧
        (handleEvent n mid s (SocketEvent.data r)).settled = some o ∧
        (handleEvent n mid s (SocketEvent.data r)).sentLog = s.sentLog := by
      simp only [handleEvent, onData]
      by_cases hc : classify r
      · by_cases hst : s.stage < n <;> simp [hc, hst, he, hs]
      · have hs2 : (SessionState.mk s.stage true s.settled s.sentLog).settled = some o := hs
        simp only [hc, Bool.false_eq_true, if_false]
        rw [settle_of_settled hs2]
        exact ⟨rfl, hs, rfl⟩
    obtain ⟨h1, h2, h3⟩ := ih (handleEvent n mid s (SocketEvent.data r)) o hstep.1 hstep.2.1
    exact ⟨h1, h2, h3.trans hstep.2.2⟩

lemma negStep (n : Nat) (mid : String) (s : SessionState) (r : String)
    (hneg : classify r = false) (hpending : s.settled = none) :
    handleEvent n mid s (SocketEvent.data r) =
      SessionState.mk s.stage true (some (Outcome.rejected ("SMTP Error: " ++ r))) s.sentLog := by
  have h2 : (SessionState.mk s.stage true s.settled s.sentLog).settled = none := hpending
  simp only [handleEvent, onData, hneg, Bool.false_eq_true, if_false]
  rw [settle_of_pending h2]

/-- C1 (amended): over any run of consecutively Positive classified
deliveries, the stage pointer advances by exactly one per classification
while fewer than nine commands are out, and the transmitted command indices
are exactly 0, 1, ..., min(count, 9) - 1 in order: no stage is skipped or
repeated, and the number of commands transmitted is min(count, 9), never
more than nine.  The unamended claim (count itself, with no cap) fails at
ten Positive classifications, see the counterexample. -/
theorem c1_stage_lockstep (mid : String) (rs : List String)
    (hpos : ∀ r ∈ rs, classify r = true) :
    (runSession 9 mid (rs.map SocketEvent.data)).sentLog = List.range (min rs.length 9) ∧
    (runSession 9 mid (rs.map SocketEvent.data)).stage = min rs.length 9 := by
  rw [runSession, ← cleanState_zero, cleanRun mid rs hpos 0 (by omega)]
  constructor <;> simp [cleanState]

theorem c1_stage_lockstep_witness :
    (runSession 9 "<1@d>" ((["220 s", "250 ok", "354 go"] : List String).map SocketEvent.data)).sentLog =
      List.range (min (["220 s", "250 ok", "354 go"] : List String).length 9) ∧
    (runSession 9 "<1@d>" ((["220 s", "250 ok", "354 go"] : List String).map SocketEvent.data)).stage =
      min (["220 s", "250 ok", "354 go"] : List String).length 9 :=
  c1_stage_lockstep "<1@d>" ["220 s", "250 ok", "354 go"] (by decide)

/-- C1 counterexample: the happy-path session of spec scenario 1 delivers ten
Positive classifications (greeting through QUIT acknowledgment) but only nine
commands are ever transmitted, so the transmitted count does not equal the
count of consecutive Positive classifications received. -/
theorem c1_counterexample :
    (["220 s", "250 a", "334 u", "334 p", "235 ok", "250 b", "250 c", "354 go", "250 d",
        "221 bye"] : List String).all classify = true ∧
    (runSession 9 "<1@d>"
        ((["220 s", "250 a", "334 u", "334 p", "235 ok", "250 b", "250 c", "354 go", "250 d",
            "221 bye"] : List String).map SocketEvent.data)).sentLog.length ≠
      (["220 s", "250 a", "334 u", "334 p", "235 ok", "250 b", "250 c", "354 go", "250 d",
          "221 bye"] : List String).length := by
  decide

/-- C2 (amended): upon the first Negative classification, arriving after k
consecutively Positive classified deliveries, the socket is ended at once and
the session settles exactly once, with a rejection carrying the raw server
response (the stage is not part of the outcome value); the transmitted
command indices, over the whole remaining life of the session, stay exactly
0, ..., min(k, 9) - 1, so no command at index at or beyond the failure stage
is ever put on the wire. -/
theorem c2_negative_rejects (mid : String) (ps : List String)
    (hpos : ∀ r ∈ ps, classify r = true) (r : String) (hneg : classify r = false)
    (rest : List String) :
    (runSession 9 mid ((ps ++ r :: rest).map SocketEvent.data)).ended = true ∧
    (runSession 9 mid ((ps ++ r :: rest).map SocketEvent.data)).settled =
      some (Outcome.rejected ("SMTP Error: " ++ r)) ∧
    (runSession 9 mid ((ps ++ r :: rest).map SocketEvent.data)).sentLog =
      List.range (min ps.length 9) := by
  rw [runSession, List.map_append, runEvents_append, ← cleanState_zero,
    cleanRun mid ps hpos 0 (by omega), List.map_cons, runEvents,
    negStep 9 mid _ r hneg rfl]
  have hd := deadRun 9 mid rest
    (SessionState.mk (cleanState (min (0 + ps.length) 9)).stage true
      (some (Outcome.rejected ("SMTP Error: " ++ r)))
      (cleanState (min (0 + ps.length) 9)).sentLog)
    (Outcome.rejected ("SMTP Error: " ++ r)) rfl rfl
  refine ⟨hd.1, hd.2.1, ?_⟩
  rw [hd.2.2]
  simp [cleanState]

theorem c2_negative_rejects_witness :
    (runSession 9 "<1@d>" ((["220 a"] ++ "550 no" :: ["250 later"]).map SocketEvent.data)).ended
        = true ∧
    (runSession 9 "<1@d>" ((["220 a"] ++ "550 no" :: ["250 later"]).map SocketEvent.data)).settled
        = some (Outcome.rejected ("SMTP Error: " ++ "550 no")) ∧
    (runSession 9 "<1@d>" ((["220 a"] ++ "550 no" :: ["250 later"]).map SocketEvent.data)).sentLog
        = List.range (min (["220 a"] : List String).length 9) :=
  c2_negative_rejects "<1@d>" ["220 a"] (by decide) "550 no" (by decide) ["250 later"]

/-- C2 counterexample: sessions failing at stage 0 and at stage 1 on the same
raw server response settle with equal outcome values, so the outcome cannot
be carrying the stage, contrary to the claim that the resolved ProtocolError
carries stage k. -/
theorem c2_counterexample :
    (runSession 9 "<1@d>" [SocketEvent.data "550 no"]).settled =
      (runSession 9 "<1@d>" [SocketEvent.data "250 ok", SocketEvent.data "550 no"]).settled ∧
    (runSession 9 "<1@d>" [SocketEvent.data "550 no"]).stage ≠
      (runSession 9 "<1@d>" [SocketEvent.data "250 ok", SocketEvent.data "550 no"]).stage := by
  decide

/-- C3: evaluation of the data handler at the failing input.  The reply
`250 OK` arrives split into the deliveries `2` and `50 OK` + CRLF.  The claim
requires the first delivery to be classified Incomplete with no stage advance
and the completed line to then count as one Positive classification.  The
code instead classifies the bare fragment `2` as Positive (transmitting
command 0) and then classifies the remainder as Negative, rejecting the whole
session, even though the full line `250 OK` + CRLF would have been
Positive. -/
theorem c3_fragmented_delivery_eval :
    (runSession 9 "<1@d>" [SocketEvent.data "2", SocketEvent.data "50 OK\r\n"]).sentLog = [0] ∧
    (runSession 9 "<1@d>" [SocketEvent.data "2", SocketEvent.data "50 OK\r\n"]).settled =
      some (Outcome.rejected ("SMTP Error: " ++ "50 OK\r\n")) ∧
    classify "2" = true ∧ classify "250 OK\r\n" = true := by
  decide

/-- C4 (amended): on the close event of a still pending session, the outcome
is Succeeded with the message identifier exactly when the stage pointer
reached at least N - 1 = 8, that is, when all commands up to and including
the DATA content were transmitted (QUIT itself, command index 8, need not
have been); otherwise the session is rejected with the fixed text
`SMTP connection closed prematurely`, which does not include the stage. -/
theorem c4_close_resolution (mid : String) (s : SessionState)
    (hpending : s.settled = none) :
    (handleEvent 9 mid s SocketEvent.close).settled =
      some (if 8 ≤ s.stage then Outcome.resolved mid
            else Outcome.rejected "SMTP connection closed prematurely") := by
  by_cases h : 8 ≤ s.stage <;>
    simp [handleEvent, show (9 - 1 : Nat) = 8 from rfl, h, settle_of_pending hpending]

theorem c4_close_resolution_witness :
    (handleEvent 9 "<1@d>" initState SocketEvent.close).settled =
      some (if 8 ≤ initState.stage then Outcome.resolved "<1@d>"
            else Outcome.rejected "SMTP connection closed prematurely") :=
  c4_close_resolution "<1@d>" initState rfl

/-- C4 counterexample: after exactly eight Positive classifications the close
handler resolves Succeeded although QUIT (command index 8) was never
transmitted, refuting the gloss that reaching stage N - 1 means QUIT was
transmitted; and premature closes at different stages settle with equal
outcome values, so the PrematureClose outcome carries no stage. -/
theorem c4_counterexample :
    (runSession 9 "<1@d>"
        (List.replicate 8 (SocketEvent.data "250 ok") ++ [SocketEvent.close])).settled =
      some (Outcome.resolved "<1@d>") ∧
    8 ∉ (runSession 9 "<1@d>"
        (List.replicate 8 (SocketEvent.data "250 ok") ++ [SocketEvent.close])).sentLog ∧
    (runSession 9 "<1@d>" [SocketEvent.data "220 a", SocketEvent.close]).settled =
      (runSession 9 "<1@d>"
        [SocketEvent.data "220 a", SocketEvent.data "250 b", SocketEvent.close]).settled ∧
    (runSession 9 "<1@d>" [SocketEvent.data "220 a", SocketEvent.close]).stage ≠
      (runSession 9 "<1@d>"
        [SocketEvent.data "220 a", SocketEvent.data "250 b", SocketEvent.close]).stage := by
  decide

/-- C5 (amended): when the server answers every command positively through
the acknowledgment of the DATA content, that acknowledgment is the ninth
Positive classification, so QUIT has already been transmitted and the stage
pointer is 9; a close before any QUIT acknowledgment therefore resolves the
session Succeeded with the message identifier, not
Failed(PrematureClose), contrary to the unamended claim. -/
theorem c5_positive_then_close (mid : String) (rs : List String)
    (hlen : rs.length = 9) (hpos : ∀ r ∈ rs, classify r = true) :
    (runSession 9 mid (rs.map SocketEvent.data ++ [SocketEvent.close])).settled =
      some (Outcome.resolved mid) := by
  rw [runSession, runEvents_append, ← cleanState_zero, cleanRun mid rs hpos 0 (by omega), hlen]
  simp [runEvents, handleEvent, cleanState, settle]

theorem c5_positive_then_close_witness :
    (runSession 9 "<1@d>"
        ((["220 s", "250 a", "334 u", "334 p", "235 ok", "250 b", "250 c", "354 go",
            "250 d"] : List String).map SocketEvent.data ++ [SocketEvent.close])).settled =
      some (Outcome.resolved "<1@d>") :=
  c5_positive_then_close "<1@d>"
    ["220 s", "250 a", "334 u", "334 p", "235 ok", "250 b", "250 c", "354 go", "250 d"]
    (by decide) (by decide)

/-- C5 counterexample: the stub session of spec scenario 4 (positive replies
through the DATA content acknowledgment, then close before any QUIT reply)
settles Succeeded with the message identifier, which differs from the
Failed(PrematureClose) outcome the claim requires. -/
theorem c5_counterexample :
    (runSession 9 "<1@d>"
        ((["220 s", "250 a", "334 u", "334 p", "235 ok", "250 b", "250 c", "354 go",
            "250 d"] : List String).map SocketEvent.data ++ [SocketEvent.close])).settled =
      some (Outcome.resolved "<1@d>") ∧
    some (Outcome.resolved "<1@d>") ≠
      some (Outcome.rejected "SMTP connection closed prematurely") := by
  decide

/-- C7: a settled session never changes its outcome: whatever events follow
the ones that first settled the promise (a close after an error-triggered
end, a simulated double close, stray data), the settled outcome of the
session is the one fixed by the first terminal event. -/
theorem c7_idempotent_resolution (n : Nat) (mid : String) (o : Outcome)
    (fst more : List SocketEvent) (h : (runSession n mid fst).settled = some o) :
    (runSession n mid (fst ++ more)).settled = some o := by
  rw [runSession, runEvents_append]
  exact runEvents_keeps_settled more _ h

theorem c7_idempotent_resolution_witness :
    (runSession 9 "<1@d>" ([SocketEvent.close] ++ [SocketEvent.close])).settled =
      some (Outcome.rejected "SMTP connection closed prematurely") :=
  c7_idempotent_resolution 9 "<1@d>" (Outcome.rejected "SMTP connection closed prematurely")
    [SocketEvent.close] [SocketEvent.close] (by decide)

/-- C6: evaluation of the message identifier construction at the failing
input.  For a request sent through the HTTP route, `sendEmail` builds the
from option as display name plus angle-bracketed authenticated address, and
`_sendViaHostinger` takes the domain as `mailOptions.from.split(@)[1]`, which
keeps the trailing closing angle bracket.  The resulting identifier ends in
two closing angle brackets, fails the pattern of the claim, and its domain
part differs from the domain of the sender address; the intended well-formed
identifier would have matched. -/
theorem c6_messageId_eval :
    mkFrom "John" "user@example.com" = "\"John\" <user@example.com>" ∧
    mkMessageId 1700000000000 (mkFrom "John" "user@example.com") =
      "<1700000000000@example.com>>" ∧
    matchesMsgIdPattern (mkMessageId 1700000000000 (mkFrom "John" "user@example.com")) = false ∧
    jsSplitAt1 (mkFrom "John" "user@example.com") ≠ jsSplitAt1 "user@example.com" ∧
    matchesMsgIdPattern "<1700000000000@example.com>" = true := by
  decide

/-- C8: the command list built by the code coincides, for every mail request
and configuration, with the nine-stage CRLF-terminated envelope the
specification describes: EHLO with the domain of the authenticated sender,
AUTH LOGIN, base64 username, base64 secret, MAIL FROM with the authenticated
sender address (not the caller-supplied display address), RCPT TO with the
recipient, DATA, the From/To/Subject/Message-ID/Content-Type header block
followed by a blank line and the HTML body (falling back to the plain text
body) terminated by CRLF dot CRLF, and QUIT. -/
theorem c8_envelope_refinement (user pass fromHeader recipient subject text : String)
    (html : Option String) (messageId : String) :
    buildCommands user pass fromHeader recipient subject text html messageId =
      specEnvelope user pass fromHeader recipient subject text html messageId := by
  cases html with
  | none =>
    simp only [buildCommands, specEnvelope, specDataBlock, specBody, jsOr, crlf, strAppendAssoc]
    rfl
  | some h =>
    simp only [buildCommands, specEnvelope, specDataBlock, specBody, jsOr, crlf, strAppendAssoc]
    rfl

/-- C9 (amended): no validation of sender, recipient or configuration happens
in sendMail or in the promise executor: the TLS connection attempt is always
issued first, whatever is absent; an absent sender then makes the executor
throw a TypeError (rejecting the session after the connection attempt, and
not with any InvalidRequest classification); and with sender and credentials
present an absent recipient produces no failure at all, the literal text
undefined being embedded in the RCPT command. -/
theorem c9_no_validation (userOpt passOpt fromOpt toOpt : Option String)
    (subject text : String) (html : Option String) (now : Nat) :
    (setupPhase userOpt passOpt fromOpt toOpt subject text html now).connectAttempted = true ∧
    (fromOpt = none →
      (setupPhase userOpt passOpt fromOpt toOpt subject text html now).result =
        SetupOutcome.thrown SetupError.typeErrorThrown) ∧
    (∀ u p f, userOpt = some u → passOpt = some p → fromOpt = some f →
      (setupPhase userOpt passOpt fromOpt toOpt subject text html now).result =
        SetupOutcome.ok
          (buildCommands u p f (jsTemplate toOpt) subject text html (mkMessageId now f))
          (mkMessageId now f)) := by
  refine ⟨rfl, ?_, ?_⟩
  · intro h
    subst h
    rfl
  · intro u p f hu hp hf
    subst hu
    subst hp
    subst hf
    rfl

theorem c9_no_validation_witness :
    (setupPhase (some "user@example.com") (some "pw")
        (some "\"John\" <user@example.com>") none "Hi" "Body" none 1700000000000).connectAttempted
      = true ∧
    (setupPhase (some "user@example.com") (some "pw")
        (some "\"John\" <user@example.com>") none "Hi" "Body" none 1700000000000).result =
      SetupOutcome.ok
        (buildCommands "user@example.com" "pw" "\"John\" <user@example.com>" (jsTemplate none)
          "Hi" "Body" none (mkMessageId 1700000000000 "\"John\" <user@example.com>"))
        (mkMessageId 1700000000000 "\"John\" <user@example.com>") := by
  have h := c9_no_validation (some "user@example.com") (some "pw")
    (some "\"John\" <user@example.com>") none "Hi" "Body" none 1700000000000
  exact ⟨h.1, h.2.2 "user@example.com" "pw" "\"John\" <user@example.com>" rfl rfl rfl⟩

/-- C9 counterexample: with the sender absent the connection attempt is still
issued and the failure is a thrown TypeError, so nothing is detected before
network I/O and no InvalidRequest outcome exists; and with the recipient
absent the setup does not fail at all, emitting RCPT TO with the literal text
undefined. -/
theorem c9_counterexample :
    (setupPhase (some "user@example.com") (some "pw") none (some "r@x.com") "Hi" "Body" none
        1700000000000).connectAttempted = true ∧
    (setupPhase (some "user@example.com") (some "pw") none (some "r@x.com") "Hi" "Body" none
        1700000000000).result = SetupOutcome.thrown SetupError.typeErrorThrown ∧
    setupSucceeded (setupPhase (some "user@example.com") (some "pw")
        (some (mkFrom "John" "user@example.com")) none "Hi" "Body" none 1700000000000) = true ∧
    "RCPT TO:<undefined>\r\n" ∈ setupCommands (setupPhase (some "user@example.com") (some "pw")
        (some (mkFrom "John" "user@example.com")) none "Hi" "Body" none 1700000000000) := by
  decide

/-- C10: the DATA payload (command index 7) always carries the literal
Content-Type header text/html; charset=utf-8, whatever the body is; and when
no HTML body is supplied the transmitted content is the plain text body. -/
theorem c10_content_type (user pass fromHeader recipient subject text : String)
    (html : Option String) (messageId : String) :
    (buildCommands user pass fromHeader recipient subject text html messageId).getD 7 "" =
      "From: " ++ fromHeader ++ crlf ++ "To: " ++ recipient ++ crlf ++ "Subject: " ++ subject ++
        crlf ++ "Message-ID: " ++ messageId ++ crlf ++
        "Content-Type: text/html; charset=utf-8" ++ crlf ++ crlf ++ jsOr html text ++ crlf ++
        "." ++ crlf ∧
    jsOr none text = text := by
  constructor
  · have hsel : (buildCommands user pass fromHeader recipient subject text html messageId).getD
        7 "" =
        "From: " ++ fromHeader ++ "\r\nTo: " ++ recipient ++ "\r\nSubject: " ++ subject ++
          "\r\nMessage-ID: " ++ messageId ++
          "\r\nContent-Type: text/html; charset=utf-8\r\n\r\n" ++ jsOr html text ++ "\r\n.\r\n" :=
      rfl
    rw [hsel]
    simp only [crlf, strAppendAssoc]
    rfl
  · rfl
